import Mathlib

/-!
# Auth0Provider (auth-sdk/providers/auth0-provider.js)

A shallow embedding of the `Auth0Provider` class.  Every method of the class is an
`async` function that awaits one call on the vendor client; the embedding passes the
browser window and the client's internal state explicitly and returns, next to the
settled value of the promise, the events the method emitted (client calls, the
`history.replaceState` call, `console.error` lines).

Scope of the model:
* an awaited client promise settles: it resolves (`Except.ok`) or rejects
  (`Except.error`); a synchronous throw inside `try` is a rejection too;
* the client reads the window but does not rewrite the location; the navigation that
  `loginWithRedirect` and `logout` cause unloads the page and is not modelled;
* `history.replaceState` is the browser's: it throws and leaves the location as it was
  when the url resolves to another origin or does not parse, so the URL resolution is a
  parameter (`Browser`);
* an invocation runs to completion before the next one starts.
-/

set_option autoImplicit false

namespace AuthSdk

/-! ## JavaScript values and objects -/

/-- The JavaScript values the provider handles.  `obj` stands for any object, array,
function or symbol (identified by a tag); numbers are the integer-valued ones and `NaN`. -/
inductive JSVal where
  | undefined
  | null
  | bool (b : Bool)
  | num (n : Int)
  | nan
  | str (s : String)
  | obj (tag : Nat)
  deriving DecidableEq, Repr

/-- ToBoolean of ECMAScript: the falsy values are `undefined`, `null`, `false`, `0`,
`NaN` and the empty string. -/
def JSVal.truthy : JSVal → Bool
  | .undefined => false
  | .null => false
  | .bool b => b
  | .num n => n != 0
  | .nan => false
  | .str s => s != ""
  | .obj _ => true

/-- The operator `a || b`. -/
def JSVal.or (a b : JSVal) : JSVal :=
  if a.truthy then a else b

/-- The own enumerable properties of a plain object, in order. -/
abbrev Obj := List (String × JSVal)

/-- Property read `o[k]`: `none` when `o` has no own property `k`. -/
def Obj.get : Obj → String → Option JSVal
  | [], _ => none
  | (k', v) :: o, k => if k' = k then some v else Obj.get o k

/-- Property definition `o[k] = v`: an existing property keeps its place and takes the
new value, a new one is added at the end. -/
def Obj.set : Obj → String → JSVal → Obj
  | [], k, v => [(k, v)]
  | (k', v') :: o, k, v => if k' = k then (k, v) :: o else (k', v') :: Obj.set o k v

/-- Spread `{...target, ...source}` onto an object under construction: the properties
of `source` are defined on `target` one after the other. -/
def Obj.spread (target source : Obj) : Obj :=
  source.foldl (fun acc kv => Obj.set acc kv.1 kv.2) target

/-! ## Strings -/

/-- Whether `sub` occurs in `s` starting at some position. -/
def includesChars : List Char → List Char → Bool
  | [], sub => sub.isPrefixOf []
  | c :: cs, sub => sub.isPrefixOf (c :: cs) || includesChars cs sub

/-- The method `String.prototype.includes`.  The search strings of the provider are ASCII, for
which containment over code points and over UTF-16 code units agree. -/
def includes (s sub : String) : Bool :=
  includesChars s.data sub.data

/-! ## The browser window, the vendor client and the emitted events -/

/-- What the provider reads from `window` and `document`. -/
structure Window where
  /-- The value of `window.location.search`. -/
  search : String
  /-- The value of `window.location.pathname`; it starts with `/` and holds no `?` and
  no `#`. -/
  pathname : String
  /-- The value of `window.location.origin`. -/
  origin : String
  /-- The value of `document.title`. -/
  title : String
  deriving DecidableEq, Repr

/-- The URL resolution of the browser, for a url string without query and fragment (the
provider passes `location.pathname`). -/
structure Browser where
  /-- The path of the URL that `url` resolves to against the location of the page, when
  that URL has the origin of the page; `none` when it has another origin or does not
  parse. -/
  sameOriginPath : Window → String → Option String

/-- The `SecurityError` exception of the DOM. -/
def securityError : JSVal := .obj 18

/-- The call `window.history.replaceState(state, title, url)` for a url without query
and fragment: the current entry is rewritten to the resolved URL, which has no query;
when the url does not resolve to a URL of the page's origin the call throws and the
location stays as it was. -/
def Browser.replaceState (b : Browser) (w : Window) (url : String) : Except JSVal Window :=
  match b.sameOriginPath w url with
  | some path => .ok { w with pathname := path, search := "" }
  | none => .error securityError

/-- A call on the vendor client, with the argument the provider passes. -/
inductive ClientCall where
  | handleRedirectCallback
  | loginWithRedirect (authorizationParams : Obj)
  | logout (returnTo : JSVal)
  | getUser
  | isAuthenticated
  | getTokenSilently
  deriving DecidableEq, Repr

/-- The observable steps of a provider method, in order. -/
inductive Event where
  /-- A client method was called and its promise resolved (`true`) or rejected. -/
  | call (m : ClientCall) (resolved : Bool)
  /-- The call `window.history.replaceState({}, title, url)`, whether it returned or
  threw. -/
  | replaceState (title url : String)
  /-- The call `console.error(message, error)`. -/
  | consoleError (message : String) (error : JSVal)
  deriving DecidableEq, Repr

/-- The behaviour of an `Auth0Client` (package `@auth0/auth0-spa-js`) with internal state
`σ`: each method sees the window and the state, settles with a value or an error and
leaves a new state.  The result types follow the package's declarations
(`isAuthenticated(): Promise<boolean>`). -/
structure Auth0Client (σ : Type) where
  handleRedirectCallback : Window → σ → Except JSVal JSVal × σ
  loginWithRedirect : Obj → Window → σ → Except JSVal Unit × σ
  logout : JSVal → Window → σ → Except JSVal Unit × σ
  getUser : Window → σ → Except JSVal JSVal × σ
  isAuthenticated : Window → σ → Except JSVal Bool × σ
  getTokenSilently : Window → σ → Except JSVal JSVal × σ

/-- The state the methods run in: the window and the client's internal state. -/
structure World (σ : Type) where
  window : Window
  client : σ
  deriving DecidableEq

/-- What a method invocation leaves behind: the settled value of its promise
(`Except.error` is a rejection), the events it emitted and the world after it. -/
structure Outcome (σ α : Type) where
  result : Except JSVal α
  events : List Event
  world : World σ

/-! ## The provider -/

/-- The fields of the `config` object the provider reads.  `options` and `authParams`
hold the own enumerable properties that the spread copies (none when the field is
`undefined` or `null`). -/
structure Config where
  domain : JSVal
  clientId : JSVal
  redirectUri : JSVal
  logoutRedirectUri : JSVal
  options : Obj
  authParams : Obj
  deriving DecidableEq, Repr

/-- The argument of `new Auth0Client(...)` in the constructor (lines 8-15). -/
def clientOptions (config : Config) : Obj :=
  Obj.spread
    [("domain", config.domain),
     ("client_id", config.clientId),
     ("redirect_uri", config.redirectUri),
     ("cacheLocation", .str "localstorage"),
     ("useRefreshTokens", .bool true)]
    config.options

/-- An `Auth0Provider` instance: `this.config` and `this.client`. -/
structure Auth0Provider (σ : Type) where
  config : Config
  client : Auth0Client σ

namespace Auth0Provider

variable {σ : Type}

/-- The method `_handleAuthCallback` (lines 21-34).  Both the client call and the call
of `history.replaceState` stand inside the `try`: whichever throws is logged by the
`catch`. -/
def _handleAuthCallback (p : Auth0Provider σ) (b : Browser) (w : World σ) :
    Outcome σ Unit :=
  let query := w.window.search
  if includes query "code=" && includes query "state=" then
    match p.client.handleRedirectCallback w.window w.client with
    | (.ok _, s) =>
      match b.replaceState w.window w.window.pathname with
      | .ok window =>
        { result := .ok ()
          events := [.call .handleRedirectCallback true,
                     .replaceState w.window.title w.window.pathname]
          world := { window := window, client := s } }
      | .error error =>
        { result := .ok ()
          events := [.call .handleRedirectCallback true,
                     .replaceState w.window.title w.window.pathname,
                     .consoleError "Error handling redirect callback:" error]
          world := { window := w.window, client := s } }
    | (.error error, s) =>
      { result := .ok ()
        events := [.call .handleRedirectCallback false,
                   .consoleError "Error handling redirect callback:" error]
        world := { window := w.window, client := s } }
  else
    { result := .ok (), events := [], world := w }

/-- The constructor (lines 6-19): the client is created from `clientOptions config` and
`_handleAuthCallback` is started. -/
def constructor (newClient : Obj → Auth0Client σ) (config : Config) (b : Browser)
    (w : World σ) : Auth0Provider σ × Outcome σ Unit :=
  let p : Auth0Provider σ := { config := config, client := newClient (clientOptions config) }
  (p, p._handleAuthCallback b w)

/-- The argument `authorizationParams` of `loginWithRedirect` (lines 39-42). -/
def authorizationParams (config : Config) : Obj :=
  Obj.spread [("redirect_uri", config.redirectUri)] config.authParams

/-- The method `login` (lines 36-48). -/
def login (p : Auth0Provider σ) (w : World σ) : Outcome σ Unit :=
  let params := authorizationParams p.config
  match p.client.loginWithRedirect params w.window w.client with
  | (.ok _, s) =>
    { result := .ok ()
      events := [.call (.loginWithRedirect params) true]
      world := { window := w.window, client := s } }
  | (.error error, s) =>
    { result := .error error
      events := [.call (.loginWithRedirect params) false, .consoleError "Login error:" error]
      world := { window := w.window, client := s } }

/-- The argument `logoutParams.returnTo` of `client.logout` (line 54). -/
def returnTo (config : Config) (window : Window) : JSVal :=
  config.logoutRedirectUri.or (.str window.origin)

/-- The method `logout` (lines 50-61). -/
def logout (p : Auth0Provider σ) (w : World σ) : Outcome σ Unit :=
  let target := returnTo p.config w.window
  match p.client.logout target w.window w.client with
  | (.ok _, s) =>
    { result := .ok ()
      events := [.call (.logout target) true]
      world := { window := w.window, client := s } }
  | (.error error, s) =>
    { result := .error error
      events := [.call (.logout target) false, .consoleError "Logout error:" error]
      world := { window := w.window, client := s } }

/-- The method `getUser` (lines 63-71). -/
def getUser (p : Auth0Provider σ) (w : World σ) : Outcome σ JSVal :=
  match p.client.getUser w.window w.client with
  | (.ok user, s) =>
    { result := .ok user
      events := [.call .getUser true]
      world := { window := w.window, client := s } }
  | (.error error, s) =>
    { result := .ok .null
      events := [.call .getUser false, .consoleError "Get user error:" error]
      world := { window := w.window, client := s } }

/-- The method `isAuthenticated` (lines 73-80). -/
def isAuthenticated (p : Auth0Provider σ) (w : World σ) : Outcome σ Bool :=
  match p.client.isAuthenticated w.window w.client with
  | (.ok answer, s) =>
    { result := .ok answer
      events := [.call .isAuthenticated true]
      world := { window := w.window, client := s } }
  | (.error error, s) =>
    { result := .ok false
      events := [.call .isAuthenticated false,
                 .consoleError "Authentication check error:" error]
      world := { window := w.window, client := s } }

/-- The method `getToken` (lines 82-89). -/
def getToken (p : Auth0Provider σ) (w : World σ) : Outcome σ JSVal :=
  match p.client.getTokenSilently w.window w.client with
  | (.ok token, s) =>
    { result := .ok token
      events := [.call .getTokenSilently true]
      world := { window := w.window, client := s } }
  | (.error error, s) =>
    { result := .error error
      events := [.call .getTokenSilently false, .consoleError "Token retrieval error:" error]
      world := { window := w.window, client := s } }

/-- The invocation of `_handleAuthCallback` `n` times on the same page, each awaited
before the next is started: the events of all of them, in order, and the world at the
end. -/
def handleAuthCallbackTimes (p : Auth0Provider σ) (b : Browser) :
    Nat → World σ → List Event × World σ
  | 0, w => ([], w)
  | n + 1, w =>
    let first := p._handleAuthCallback b w
    let rest := handleAuthCallbackTimes p b n first.world
    (first.events ++ rest.1, rest.2)

end Auth0Provider

/-! ## Observations on event lists -/

/-- The name of the client method a call goes to. -/
def ClientCall.method : ClientCall → String
  | .handleRedirectCallback => "handleRedirectCallback"
  | .loginWithRedirect _ => "loginWithRedirect"
  | .logout _ => "logout"
  | .getUser => "getUser"
  | .isAuthenticated => "isAuthenticated"
  | .getTokenSilently => "getTokenSilently"

/-- The client methods called, in order of the calls. -/
def clientCalls : List Event → List String
  | [] => []
  | .call m _ :: evs => m.method :: clientCalls evs
  | _ :: evs => clientCalls evs

/-- The number of calls of `client.handleRedirectCallback`. -/
def exchanges : List Event → Nat
  | [] => 0
  | .call .handleRedirectCallback _ :: evs => exchanges evs + 1
  | _ :: evs => exchanges evs

/-- The number of calls of `client.handleRedirectCallback` that resolved. -/
def resolvedExchanges : List Event → Nat
  | [] => 0
  | .call .handleRedirectCallback true :: evs => resolvedExchanges evs + 1
  | _ :: evs => resolvedExchanges evs

/-- Whether `history.replaceState` was called. -/
def replacedState : List Event → Bool
  | [] => false
  | .replaceState _ _ :: _ => true
  | _ :: evs => replacedState evs

/-- The condition of line 24 on the query string. -/
def pendingCallback (query : String) : Bool :=
  includes query "code=" && includes query "state="

/-! ## Query parameters, as a URL parser reads them -/

/-- The pieces of `cs` between the occurrences of `sep`. -/
def splitOnChar (sep : Char) : List Char → List (List Char)
  | [] => [[]]
  | c :: cs =>
    if c = sep then [] :: splitOnChar sep cs
    else
      match splitOnChar sep cs with
      | [] => [[c]]
      | piece :: pieces => (c :: piece) :: pieces

/-- The name and value of one `name=value` piece: the name ends at the first `=`. -/
def splitParam (piece : List Char) : String × String :=
  (String.mk (piece.takeWhile (fun c => c != '=')),
   String.mk ((piece.dropWhile (fun c => c != '=')).drop 1))

/-- The parameters of a query string: the text after a leading `?`, cut at every `&`,
empty pieces dropped. -/
def queryParams (query : String) : List (String × String) :=
  let body := match query.data with
    | '?' :: rest => rest
    | rest => rest
  ((splitOnChar '&' body).filter (fun piece => !piece.isEmpty)).map splitParam

/-- Whether the query string has a parameter named `name`. -/
def hasParam (query name : String) : Bool :=
  (queryParams query).any (fun kv => kv.1 == name)

/-! ## Concrete browser, clients, configurations and pages -/

/-- The text of an origin after `://`: the host, with the port if any. -/
def originAuthority : List Char → List Char
  | [] => []
  | c :: cs =>
    match c, cs with
    | ':', '/' :: '/' :: rest => rest
    | _, _ => originAuthority cs

/-- A browser that resolves a path as the URL standard does: a string that starts with
`//` is scheme-relative, the text up to the next `/` names the host (compared as
written with that of the page) and the rest is the path; any other string is a path of
the page's origin. -/
def standardBrowser : Browser where
  sameOriginPath := fun w url =>
    match url.data with
    | '/' :: '/' :: rest =>
      let named := rest.dropWhile (fun c => c == '/')
      let authority := named.takeWhile (fun c => c != '/')
      let path := named.dropWhile (fun c => c != '/')
      if authority == originAuthority w.origin.data && !authority.isEmpty then
        some (if path.isEmpty then "/" else String.mk path)
      else none
    | _ => some url

/-- A client every call of which rejects with `error`; its state counts the calls. -/
def rejectingClient (error : JSVal) : Auth0Client Nat where
  handleRedirectCallback := fun _ s => (.error error, s + 1)
  loginWithRedirect := fun _ _ s => (.error error, s + 1)
  logout := fun _ _ s => (.error error, s + 1)
  getUser := fun _ s => (.error error, s + 1)
  isAuthenticated := fun _ s => (.error error, s + 1)
  getTokenSilently := fun _ s => (.error error, s + 1)

/-- A client every call of which resolves; its state counts the calls. -/
def resolvingClient (answer : Bool) (user token : JSVal) : Auth0Client Nat where
  handleRedirectCallback := fun _ s => (.ok .undefined, s + 1)
  loginWithRedirect := fun _ _ s => (.ok (), s + 1)
  logout := fun _ _ s => (.ok (), s + 1)
  getUser := fun _ s => (.ok user, s + 1)
  isAuthenticated := fun _ s => (.ok answer, s + 1)
  getTokenSilently := fun _ s => (.ok token, s + 1)

/-- A client whose `logout` rejects with `error` while the session it holds stays
signed in. -/
def staleClient (error : JSVal) : Auth0Client Nat :=
  { resolvingClient true (.obj 1) (.str "T1") with
    logout := fun _ _ s => (.error error, s + 1) }

/-- A configuration with caller-supplied options and parameters. -/
def sampleConfig : Config where
  domain := .str "tenant.example.com"
  clientId := .str "abc123"
  redirectUri := .str "https://app.example/callback"
  logoutRedirectUri := .str ""
  options := [("cacheLocation", .str "memory"), ("audience", .str "api")]
  authParams := [("scope", .str "openid"), ("redirect_uri", .str "https://app.example/alt")]

/-- The network error the sample clients reject with. -/
def networkError : JSVal := .str "network"

/-- A provider over the rejecting client. -/
def rejectingProvider : Auth0Provider Nat :=
  { config := sampleConfig, client := rejectingClient networkError }

/-- A provider over the resolving client. -/
def resolvingProvider (answer : Bool) : Auth0Provider Nat :=
  { config := sampleConfig, client := resolvingClient answer .undefined (.str "T1") }

/-- A provider over the client with the stale session. -/
def staleProvider : Auth0Provider Nat :=
  { config := sampleConfig, client := staleClient networkError }

/-- A page reached back from the identity service. -/
def callbackPage : World Nat where
  window :=
    { search := "?code=abc&state=xyz", pathname := "/callback",
      origin := "https://app.example", title := "App" }
  client := 0

/-- A page reached back from the identity service at
`https://app.example//evil.example/cb?code=abc&state=xyz`. -/
def crossOriginPage : World Nat where
  window :=
    { search := "?code=abc&state=xyz", pathname := "//evil.example/cb",
      origin := "https://app.example", title := "App" }
  client := 0

/-- A page without callback parameters. -/
def plainPage : World Nat where
  window :=
    { search := "?tab=code", pathname := "/home",
      origin := "https://app.example", title := "App" }
  client := 0

/-! ## Lemmas on strings and objects -/

theorem includesChars_iff_infix (s sub : List Char) :
    includesChars s sub = true ↔ sub <:+: s := by
  induction s with
  | nil =>
    simp [includesChars]
  | cons c cs ih =>
    simp only [includesChars, Bool.or_eq_true, ih, List.infix_cons_iff,
      List.isPrefixOf_iff_prefix]

theorem Obj.get_set_same (o : Obj) (k : String) (v : JSVal) :
    Obj.get (Obj.set o k v) k = some v := by
  induction o with
  | nil => simp [Obj.set, Obj.get]
  | cons kv o ih =>
    obtain ⟨k1, v1⟩ := kv
    by_cases h : k1 = k
    · simp [Obj.set, Obj.get, h]
    · simp [Obj.set, Obj.get, h, ih]

theorem Obj.get_set_other (o : Obj) (k j : String) (v : JSVal) (h : k ≠ j) :
    Obj.get (Obj.set o k v) j = Obj.get o j := by
  induction o with
  | nil => simp [Obj.set, Obj.get, h]
  | cons kv o ih =>
    obtain ⟨k1, v1⟩ := kv
    by_cases h1 : k1 = k
    · subst h1
      simp [Obj.set, Obj.get, h]
    · by_cases h2 : k1 = j
      · subst h2
        simp [Obj.set, Obj.get, h1]
      · simp [Obj.set, Obj.get, h1, h2, ih]

theorem Obj.get_eq_none (o : Obj) (k : String) (h : k ∉ o.map Prod.fst) :
    Obj.get o k = none := by
  induction o with
  | nil => rfl
  | cons kv o ih =>
    obtain ⟨k1, v1⟩ := kv
    simp only [List.map_cons, List.mem_cons, not_or] at h
    have h1 : k1 ≠ k := fun e => h.1 e.symm
    simp [Obj.get, h1, ih h.2]

/-- A read of a spread object: the source's property when the source has one, the
target's otherwise. -/
theorem Obj.get_spread (target source : Obj) (k : String)
    (hs : (source.map Prod.fst).Nodup) :
    Obj.get (Obj.spread target source) k =
      match Obj.get source k with
      | some v => some v
      | none => Obj.get target k := by
  induction source generalizing target with
  | nil => simp [Obj.spread, Obj.get]
  | cons kv source ih =>
    obtain ⟨k1, v1⟩ := kv
    simp only [List.map_cons, List.nodup_cons] at hs
    have step : Obj.spread target ((k1, v1) :: source)
        = Obj.spread (Obj.set target k1 v1) source := rfl
    rw [step, ih _ hs.2]
    by_cases h : k1 = k
    · subst h
      simp [Obj.get, Obj.get_eq_none source k1 hs.1, Obj.get_set_same]
    · simp only [Obj.get, h, if_false]
      cases Obj.get source k with
      | none => simp [Obj.get_set_other _ _ _ _ h]
      | some v => rfl

/-! ## Lemmas on `_handleAuthCallback` -/

namespace Auth0Provider

variable {σ : Type}

theorem handleAuthCallback_idle (p : Auth0Provider σ) (b : Browser) (w : World σ)
    (h : pendingCallback w.window.search = false) :
    p._handleAuthCallback b w = { result := .ok (), events := [], world := w } := by
  unfold pendingCallback at h
  simp [_handleAuthCallback, h]

theorem handleAuthCallback_accepted (p : Auth0Provider σ) (b : Browser) (w : World σ)
    (v : JSVal) (s : σ) (path : String)
    (h : pendingCallback w.window.search = true)
    (hc : p.client.handleRedirectCallback w.window w.client = (.ok v, s))
    (hb : b.sameOriginPath w.window w.window.pathname = some path) :
    p._handleAuthCallback b w =
      { result := .ok ()
        events := [.call .handleRedirectCallback true,
                   .replaceState w.window.title w.window.pathname]
        world := { window := { w.window with pathname := path, search := "" },
                   client := s } } := by
  unfold pendingCallback at h
  simp [_handleAuthCallback, Browser.replaceState, h, hc, hb]

theorem handleAuthCallback_refused (p : Auth0Provider σ) (b : Browser) (w : World σ)
    (v : JSVal) (s : σ)
    (h : pendingCallback w.window.search = true)
    (hc : p.client.handleRedirectCallback w.window w.client = (.ok v, s))
    (hb : b.sameOriginPath w.window w.window.pathname = none) :
    p._handleAuthCallback b w =
      { result := .ok ()
        events := [.call .handleRedirectCallback true,
                   .replaceState w.window.title w.window.pathname,
                   .consoleError "Error handling redirect callback:" securityError]
        world := { window := w.window, client := s } } := by
  unfold pendingCallback at h
  simp [_handleAuthCallback, Browser.replaceState, h, hc, hb]

theorem handleAuthCallback_rejected (p : Auth0Provider σ) (b : Browser) (w : World σ)
    (e : JSVal) (s : σ)
    (h : pendingCallback w.window.search = true)
    (hc : p.client.handleRedirectCallback w.window w.client = (.error e, s)) :
    p._handleAuthCallback b w =
      { result := .ok ()
        events := [.call .handleRedirectCallback false,
                   .consoleError "Error handling redirect callback:" e]
        world := { window := w.window, client := s } } := by
  unfold pendingCallback at h
  simp [_handleAuthCallback, h, hc]

theorem pendingCallback_empty : pendingCallback "" = false := by
  decide

theorem handleAuthCallbackTimes_idle (p : Auth0Provider σ) (b : Browser) (n : Nat)
    (w : World σ) (h : pendingCallback w.window.search = false) :
    p.handleAuthCallbackTimes b n w = ([], w) := by
  induction n with
  | zero => rfl
  | succ n ih =>
    simp [handleAuthCallbackTimes, handleAuthCallback_idle p b w h, ih]

/-- The settled value of `_handleAuthCallback`: it resolves on every path. -/
theorem result_handleAuthCallback (p : Auth0Provider σ) (b : Browser) (w : World σ) :
    (p._handleAuthCallback b w).result = .ok () := by
  cases hp : pendingCallback w.window.search with
  | false => rw [handleAuthCallback_idle p b w hp]
  | true =>
    rcases hc : p.client.handleRedirectCallback w.window w.client with ⟨r, s⟩
    cases r with
    | error e => rw [handleAuthCallback_rejected p b w e s hp hc]
    | ok v =>
      cases hb : b.sameOriginPath w.window w.window.pathname with
      | none => rw [handleAuthCallback_refused p b w v s hp hc hb]
      | some path => rw [handleAuthCallback_accepted p b w v s path hp hc hb]

/-- The events of `_handleAuthCallback` on every path. -/
theorem events_handleAuthCallback (p : Auth0Provider σ) (b : Browser) (w : World σ) :
    (p._handleAuthCallback b w).events =
      (if pendingCallback w.window.search then
        (match (p.client.handleRedirectCallback w.window w.client).1 with
          | .error e =>
            [.call .handleRedirectCallback false,
             .consoleError "Error handling redirect callback:" e]
          | .ok _ =>
            (match b.replaceState w.window w.window.pathname with
              | .ok _ =>
                [.call .handleRedirectCallback true,
                 .replaceState w.window.title w.window.pathname]
              | .error e =>
                [.call .handleRedirectCallback true,
                 .replaceState w.window.title w.window.pathname,
                 .consoleError "Error handling redirect callback:" e]))
      else []) := by
  cases hp : pendingCallback w.window.search with
  | false => simp [handleAuthCallback_idle p b w hp]
  | true =>
    rcases hc : p.client.handleRedirectCallback w.window w.client with ⟨r, s⟩
    cases r with
    | error e => simp [handleAuthCallback_rejected p b w e s hp hc]
    | ok v =>
      cases hb : b.sameOriginPath w.window w.window.pathname with
      | none =>
        simp [handleAuthCallback_refused p b w v s hp hc hb, Browser.replaceState, hb]
      | some path =>
        simp [handleAuthCallback_accepted p b w v s path hp hc hb, Browser.replaceState, hb]

theorem clientCalls_handleAuthCallback (p : Auth0Provider σ) (b : Browser) (w : World σ) :
    clientCalls (p._handleAuthCallback b w).events =
      (if pendingCallback w.window.search then ["handleRedirectCallback"] else []) := by
  cases hp : pendingCallback w.window.search with
  | false => simp [handleAuthCallback_idle p b w hp, clientCalls]
  | true =>
    rcases hc : p.client.handleRedirectCallback w.window w.client with ⟨r, s⟩
    cases r with
    | error e =>
      simp [handleAuthCallback_rejected p b w e s hp hc, clientCalls, ClientCall.method]
    | ok v =>
      cases hb : b.sameOriginPath w.window w.window.pathname with
      | none =>
        simp [handleAuthCallback_refused p b w v s hp hc hb, clientCalls, ClientCall.method]
      | some path =>
        simp [handleAuthCallback_accepted p b w v s path hp hc hb, clientCalls,
          ClientCall.method]

/-- The call of `history.replaceState` is made exactly on a callback query whose
exchange resolved. -/
theorem replacedState_handleAuthCallback (p : Auth0Provider σ) (b : Browser) (w : World σ) :
    replacedState (p._handleAuthCallback b w).events = true ↔
      (includes w.window.search "code=" = true ∧ includes w.window.search "state=" = true ∧
        ∃ v, (p.client.handleRedirectCallback w.window w.client).1 = .ok v) := by
  cases hp : pendingCallback w.window.search with
  | false =>
    rw [handleAuthCallback_idle p b w hp]
    constructor
    · intro h
      simp [replacedState] at h
    · intro h
      simp [pendingCallback, h.1, h.2.1] at hp
  | true =>
    have hq : includes w.window.search "code=" = true ∧
        includes w.window.search "state=" = true := by
      simpa [pendingCallback] using hp
    rcases hc : p.client.handleRedirectCallback w.window w.client with ⟨r, s⟩
    cases r with
    | error e =>
      simp [handleAuthCallback_rejected p b w e s hp hc, replacedState]
    | ok v =>
      cases hb : b.sameOriginPath w.window w.window.pathname with
      | none =>
        simp [handleAuthCallback_refused p b w v s hp hc hb, replacedState, hq.1, hq.2]
      | some path =>
        simp [handleAuthCallback_accepted p b w v s path hp hc hb, replacedState,
          hq.1, hq.2]

theorem resolvedExchanges_append (xs ys : List Event) :
    resolvedExchanges (xs ++ ys) = resolvedExchanges xs + resolvedExchanges ys := by
  induction xs with
  | nil => simp [resolvedExchanges]
  | cons x xs ih =>
    rcases x with ⟨m, b⟩ | ⟨t, u⟩ | ⟨msg, e⟩
    · cases m <;> cases b <;> simp +arith [resolvedExchanges, ih]
    · simp [resolvedExchanges, ih]
    · simp [resolvedExchanges, ih]

theorem exchanges_append (xs ys : List Event) :
    exchanges (xs ++ ys) = exchanges xs + exchanges ys := by
  induction xs with
  | nil => simp [exchanges]
  | cons x xs ih =>
    rcases x with ⟨m, b⟩ | ⟨t, u⟩ | ⟨msg, e⟩
    · cases m <;> simp +arith [exchanges, ih]
    · simp [exchanges, ih]
    · simp [exchanges, ih]

theorem resolvedExchanges_times_le (p : Auth0Provider σ) (b : Browser) (n : Nat)
    (w : World σ) (path : String)
    (hb : b.sameOriginPath w.window w.window.pathname = some path) :
    resolvedExchanges (p.handleAuthCallbackTimes b n w).1 ≤ 1 := by
  induction n generalizing w with
  | zero => simp [handleAuthCallbackTimes, resolvedExchanges]
  | succ n ih =>
    cases hp : pendingCallback w.window.search with
    | false => simp [handleAuthCallbackTimes_idle p b _ w hp, resolvedExchanges]
    | true =>
      rcases hc : p.client.handleRedirectCallback w.window w.client with ⟨r, s⟩
      cases r with
      | ok v =>
        simp only [handleAuthCallbackTimes, handleAuthCallback_accepted p b w v s path hp hc hb]
        rw [handleAuthCallbackTimes_idle p b n _ pendingCallback_empty]
        simp [resolvedExchanges]
      | error e =>
        simp only [handleAuthCallbackTimes, handleAuthCallback_rejected p b w e s hp hc]
        have := ih { window := w.window, client := s } hb
        simpa [resolvedExchanges_append, resolvedExchanges] using this

theorem exchanges_times_rejecting (p : Auth0Provider σ) (b : Browser) (n : Nat)
    (w : World σ) (hp : pendingCallback w.window.search = true)
    (hrej : ∀ win s, ∃ e, (p.client.handleRedirectCallback win s).1 = .error e) :
    exchanges (p.handleAuthCallbackTimes b n w).1 = n := by
  induction n generalizing w with
  | zero => simp [handleAuthCallbackTimes, exchanges]
  | succ n ih =>
    rcases hc : p.client.handleRedirectCallback w.window w.client with ⟨r, s⟩
    obtain ⟨e, he⟩ := hrej w.window w.client
    rw [hc] at he
    simp only at he
    subst he
    simp only [handleAuthCallbackTimes, handleAuthCallback_rejected p b w e s hp hc]
    have := ih { window := w.window, client := s } hp
    simp +arith [exchanges_append, exchanges, this]

end Auth0Provider

/-! ## The claims -/

/-- C1, as stated, fails: on a page with a callback query and a client whose
exchange rejects, the first invocation leaves the query in place and the second one
calls `client.handleRedirectCallback` again, two calls for the same context. -/
theorem c1_double_exchange_counterexample :
    pendingCallback callbackPage.window.search = true ∧
    (rejectingProvider._handleAuthCallback standardBrowser callbackPage).world.window.search
      = callbackPage.window.search ∧
    exchanges (rejectingProvider.handleAuthCallbackTimes standardBrowser 2 callbackPage).1
      = 2 ∧
    ¬ exchanges (rejectingProvider.handleAuthCallbackTimes standardBrowser 2
      callbackPage).1 ≤ 1 := by
  decide

/-- C1, amended: the provider keeps no record of consumed contexts.  For every
client behaviour and every number of invocations of `_handleAuthCallback` run one after
the other on a page: while the exchange rejects, each invocation on a callback query
calls `client.handleRedirectCallback` again; on a page whose `location.pathname`
`history.replaceState` accepts, at most one call of `client.handleRedirectCallback`
resolves, and once an invocation's exchange has resolved the later invocations call
nothing and change nothing. -/
theorem c1_at_most_one_resolved_exchange {σ : Type} (p : Auth0Provider σ) (b : Browser)
    (w : World σ) (n : Nat) :
    (pendingCallback w.window.search = true →
      (∀ win s, ∃ e, (p.client.handleRedirectCallback win s).1 = .error e) →
      exchanges (p.handleAuthCallbackTimes b n w).1 = n) ∧
    ((∃ path, b.sameOriginPath w.window w.window.pathname = some path) →
      resolvedExchanges (p.handleAuthCallbackTimes b n w).1 ≤ 1) ∧
    ((∃ path, b.sameOriginPath w.window w.window.pathname = some path) →
      resolvedExchanges (p._handleAuthCallback b w).events = 1 →
      p.handleAuthCallbackTimes b n (p._handleAuthCallback b w).world
        = ([], (p._handleAuthCallback b w).world)) := by
  refine ⟨Auth0Provider.exchanges_times_rejecting p b n w, ?_, ?_⟩
  · rintro ⟨path, hb⟩
    exact Auth0Provider.resolvedExchanges_times_le p b n w path hb
  · rintro ⟨path, hb⟩ h
    cases hp : pendingCallback w.window.search with
    | false =>
      rw [Auth0Provider.handleAuthCallback_idle p b w hp] at h
      simp [resolvedExchanges] at h
    | true =>
      rcases hc : p.client.handleRedirectCallback w.window w.client with ⟨r, s⟩
      cases r with
      | ok v =>
        rw [Auth0Provider.handleAuthCallback_accepted p b w v s path hp hc hb]
        exact Auth0Provider.handleAuthCallbackTimes_idle p b n _
          Auth0Provider.pendingCallback_empty
      | error e =>
        rw [Auth0Provider.handleAuthCallback_rejected p b w e s hp hc] at h
        simp [resolvedExchanges] at h

theorem c1_at_most_one_resolved_exchange_witness :
    (pendingCallback callbackPage.window.search = true ∧
      exchanges (rejectingProvider.handleAuthCallbackTimes standardBrowser 3
        callbackPage).1 = 3) ∧
    ((∃ path, standardBrowser.sameOriginPath callbackPage.window
        callbackPage.window.pathname = some path) ∧
      resolvedExchanges ((resolvingProvider true).handleAuthCallbackTimes standardBrowser 3
        callbackPage).1 ≤ 1) ∧
    (resolvedExchanges ((resolvingProvider true)._handleAuthCallback standardBrowser
        callbackPage).events = 1 ∧
      (resolvingProvider true).handleAuthCallbackTimes standardBrowser 3
          ((resolvingProvider true)._handleAuthCallback standardBrowser callbackPage).world
        = ([], ((resolvingProvider true)._handleAuthCallback standardBrowser
            callbackPage).world)) :=
  ⟨⟨by decide,
    (c1_at_most_one_resolved_exchange rejectingProvider standardBrowser callbackPage 3).1
      (by decide) (fun _ _ => ⟨networkError, rfl⟩)⟩,
   ⟨⟨"/callback", by decide⟩,
    (c1_at_most_one_resolved_exchange (resolvingProvider true) standardBrowser
      callbackPage 3).2.1 ⟨"/callback", by decide⟩⟩,
   ⟨by decide,
    (c1_at_most_one_resolved_exchange (resolvingProvider true) standardBrowser
      callbackPage 3).2.2 ⟨"/callback", by decide⟩ (by decide)⟩⟩

/-- C2, as stated, fails: with a client whose `logout` rejects while its session
stays signed in, `logout()` rejects with the client's error and `isAuthenticated()`
afterwards resolves with `true`. -/
theorem c2_logout_rejects_counterexample :
    (staleProvider.logout callbackPage).result = .error networkError ∧
    (staleProvider.logout callbackPage).result ≠ .ok () ∧
    (staleProvider.isAuthenticated (staleProvider.logout callbackPage).world).result
      = .ok true ∧
    (staleProvider.isAuthenticated (staleProvider.logout callbackPage).world).result
      ≠ .ok false := by
  refine ⟨rfl, ?_, rfl, ?_⟩
  · intro h
    cases h
  · intro h
    cases h

/-- C2, amended: `logout()` makes one call of `client.logout` and settles as that
call does: it resolves when the call resolves and, when the call rejects with `e`, logs
`e` with `console.error` and rejects with `e`.  It changes nothing else: the window is
as before and the provider keeps no session state, so `isAuthenticated()` afterwards
resolves with what the client answers in the state `client.logout` left, and with
`false` only when that call rejects. -/
theorem c2_logout_settles_as_remote_call {σ : Type} (p : Auth0Provider σ) (w : World σ) :
    (p.logout w).result
      = (p.client.logout (Auth0Provider.returnTo p.config w.window) w.window w.client).1 ∧
    (p.logout w).world =
      { window := w.window,
        client := (p.client.logout (Auth0Provider.returnTo p.config w.window)
          w.window w.client).2 } ∧
    (p.logout w).events =
      (match (p.client.logout (Auth0Provider.returnTo p.config w.window)
          w.window w.client).1 with
        | .ok _ => [.call (.logout (Auth0Provider.returnTo p.config w.window)) true]
        | .error e => [.call (.logout (Auth0Provider.returnTo p.config w.window)) false,
            .consoleError "Logout error:" e]) ∧
    (p.isAuthenticated (p.logout w).world).result =
      (match (p.client.isAuthenticated w.window
          (p.client.logout (Auth0Provider.returnTo p.config w.window)
            w.window w.client).2).1 with
        | .ok answer => .ok answer
        | .error _ => .ok false) := by
  rcases hc : p.client.logout (Auth0Provider.returnTo p.config w.window)
    w.window w.client with ⟨r, s⟩
  have hw : (p.logout w).world = { window := w.window, client := s } := by
    cases r <;> simp [Auth0Provider.logout, hc]
  refine ⟨?_, hw, ?_, ?_⟩
  · cases r <;> simp [Auth0Provider.logout, hc]
  · cases r <;> simp [Auth0Provider.logout, hc]
  · rw [hw]
    rcases hi : p.client.isAuthenticated w.window s with ⟨r1, s1⟩
    cases r1 <;> simp [Auth0Provider.isAuthenticated, hi]

/-- C3: when the query string lacks `code=` or lacks `state=`, `_handleAuthCallback`
resolves, calls no client method, emits nothing and leaves the window and the client
as they were; the call the constructor makes is therefore without effect on such a
page. -/
theorem c3_callback_idle_without_parameters {σ : Type} (p : Auth0Provider σ) (b : Browser)
    (w : World σ) (newClient : Obj → Auth0Client σ) (config : Config)
    (h : includes w.window.search "code=" = false ∨
         includes w.window.search "state=" = false) :
    (p._handleAuthCallback b w).result = .ok () ∧
    clientCalls (p._handleAuthCallback b w).events = [] ∧
    (p._handleAuthCallback b w).events = [] ∧
    (p._handleAuthCallback b w).world = w ∧
    (Auth0Provider.constructor newClient config b w).2.result = .ok () ∧
    (Auth0Provider.constructor newClient config b w).2.events = [] ∧
    (Auth0Provider.constructor newClient config b w).2.world = w := by
  have hp : pendingCallback w.window.search = false := by
    unfold pendingCallback
    rcases h with h | h <;> simp [h]
  simp [Auth0Provider.constructor, Auth0Provider.handleAuthCallback_idle _ b w hp,
    clientCalls]

theorem c3_callback_idle_without_parameters_witness :
    (includes plainPage.window.search "code=" = false ∨
      includes plainPage.window.search "state=" = false) ∧
    (rejectingProvider._handleAuthCallback standardBrowser plainPage).result = .ok () ∧
    (rejectingProvider._handleAuthCallback standardBrowser plainPage).events = [] ∧
    (rejectingProvider._handleAuthCallback standardBrowser plainPage).world = plainPage :=
  have h := c3_callback_idle_without_parameters rejectingProvider standardBrowser plainPage
    (fun _ => rejectingClient networkError) sampleConfig (Or.inl (by decide))
  ⟨Or.inl (by decide), h.1, h.2.2.1, h.2.2.2.1⟩

/-- C4, as stated, fails: `isAuthenticated()` over a client whose call rejects
settles exactly as over a client that resolves with `false`, and `_handleAuthCallback`
over a client whose exchange rejects settles exactly as over one whose exchange
resolves. -/
theorem c4_swallowed_failure_counterexample :
    (rejectingProvider.client.isAuthenticated callbackPage.window callbackPage.client).1
      = .error networkError ∧
    ((resolvingProvider false).client.isAuthenticated callbackPage.window
      callbackPage.client).1 = .ok false ∧
    (rejectingProvider.isAuthenticated callbackPage).result
      = ((resolvingProvider false).isAuthenticated callbackPage).result ∧
    (rejectingProvider.client.handleRedirectCallback callbackPage.window
      callbackPage.client).1 = .error networkError ∧
    ((resolvingProvider false).client.handleRedirectCallback callbackPage.window
      callbackPage.client).1 = .ok .undefined ∧
    (rejectingProvider._handleAuthCallback standardBrowser callbackPage).result
      = ((resolvingProvider false)._handleAuthCallback standardBrowser
          callbackPage).result :=
  ⟨rfl, rfl, rfl, rfl, rfl, rfl⟩

/-- C4, amended: `login` and `getToken` settle as their client call does, so a
client failure is a rejection with the client's error; `_handleAuthCallback`,
`getUser` and `isAuthenticated` always resolve: with `undefined`, with the client's
user or `null` when the call rejects, with the client's answer or `false` when the call
rejects.  Each of the five, when its client call rejects with `e`, emits exactly two
events: that one call and one `console.error` line carrying `e` under its own message. -/
theorem c4_failure_visibility {σ : Type} (p : Auth0Provider σ) (b : Browser)
    (w : World σ) :
    (p.login w).result
      = (p.client.loginWithRedirect (Auth0Provider.authorizationParams p.config)
          w.window w.client).1 ∧
    (p.getToken w).result = (p.client.getTokenSilently w.window w.client).1 ∧
    (p._handleAuthCallback b w).result = .ok () ∧
    (p.getUser w).result =
      .ok (match (p.client.getUser w.window w.client).1 with
        | .ok user => user
        | .error _ => .null) ∧
    (p.isAuthenticated w).result =
      .ok (match (p.client.isAuthenticated w.window w.client).1 with
        | .ok answer => answer
        | .error _ => false) ∧
    (∀ e, pendingCallback w.window.search = true →
      (p.client.handleRedirectCallback w.window w.client).1 = .error e →
      (p._handleAuthCallback b w).events =
        [.call .handleRedirectCallback false,
         .consoleError "Error handling redirect callback:" e]) ∧
    (∀ e, (p.client.getUser w.window w.client).1 = .error e →
      (p.getUser w).events = [.call .getUser false, .consoleError "Get user error:" e]) ∧
    (∀ e, (p.client.isAuthenticated w.window w.client).1 = .error e →
      (p.isAuthenticated w).events =
        [.call .isAuthenticated false, .consoleError "Authentication check error:" e]) ∧
    (∀ e, (p.client.loginWithRedirect (Auth0Provider.authorizationParams p.config)
        w.window w.client).1 = .error e →
      (p.login w).events =
        [.call (.loginWithRedirect (Auth0Provider.authorizationParams p.config)) false,
         .consoleError "Login error:" e]) ∧
    (∀ e, (p.client.getTokenSilently w.window w.client).1 = .error e →
      (p.getToken w).events =
        [.call .getTokenSilently false, .consoleError "Token retrieval error:" e]) := by
  refine ⟨?_, ?_, Auth0Provider.result_handleAuthCallback p b w, ?_, ?_, ?_, ?_, ?_, ?_, ?_⟩
  · rcases hc : p.client.loginWithRedirect (Auth0Provider.authorizationParams p.config)
      w.window w.client with ⟨r, s⟩
    cases r <;> simp [Auth0Provider.login, hc]
  · rcases hc : p.client.getTokenSilently w.window w.client with ⟨r, s⟩
    cases r <;> simp [Auth0Provider.getToken, hc]
  · rcases hc : p.client.getUser w.window w.client with ⟨r, s⟩
    cases r <;> simp [Auth0Provider.getUser, hc]
  · rcases hc : p.client.isAuthenticated w.window w.client with ⟨r, s⟩
    cases r <;> simp [Auth0Provider.isAuthenticated, hc]
  · intro e hp h
    rw [Auth0Provider.events_handleAuthCallback, hp, h]
    rfl
  · rcases hc : p.client.getUser w.window w.client with ⟨r, s⟩
    intro e h
    subst h
    simp [Auth0Provider.getUser, hc]
  · rcases hc : p.client.isAuthenticated w.window w.client with ⟨r, s⟩
    intro e h
    subst h
    simp [Auth0Provider.isAuthenticated, hc]
  · rcases hc : p.client.loginWithRedirect (Auth0Provider.authorizationParams p.config)
      w.window w.client with ⟨r, s⟩
    intro e h
    subst h
    simp [Auth0Provider.login, hc]
  · rcases hc : p.client.getTokenSilently w.window w.client with ⟨r, s⟩
    intro e h
    subst h
    simp [Auth0Provider.getToken, hc]

theorem c4_failure_visibility_witness :
    (pendingCallback callbackPage.window.search = true ∧
      (rejectingProvider._handleAuthCallback standardBrowser callbackPage).events =
        [.call .handleRedirectCallback false,
         .consoleError "Error handling redirect callback:" networkError]) ∧
    (rejectingProvider.getUser callbackPage).events
      = [.call .getUser false, .consoleError "Get user error:" networkError] ∧
    (rejectingProvider.isAuthenticated callbackPage).events
      = [.call .isAuthenticated false,
         .consoleError "Authentication check error:" networkError] ∧
    (rejectingProvider.getToken callbackPage).events
      = [.call .getTokenSilently false,
         .consoleError "Token retrieval error:" networkError] :=
  have h := c4_failure_visibility rejectingProvider standardBrowser callbackPage
  ⟨⟨by decide, h.2.2.2.2.2.1 networkError (by decide) rfl⟩,
    h.2.2.2.2.2.2.1 networkError rfl, h.2.2.2.2.2.2.2.1 networkError rfl,
    h.2.2.2.2.2.2.2.2.2 networkError rfl⟩

/-- C5, as stated, fails: the client's error `networkError` raised inside `login`,
`logout` and `getToken` is what each of them rejects with, unwrapped. -/
theorem c5_raw_error_counterexample :
    (rejectingProvider.client.loginWithRedirect
      (Auth0Provider.authorizationParams rejectingProvider.config)
      callbackPage.window callbackPage.client).1 = .error networkError ∧
    (rejectingProvider.login callbackPage).result = .error networkError ∧
    (rejectingProvider.logout callbackPage).result = .error networkError ∧
    (rejectingProvider.getToken callbackPage).result = .error networkError :=
  ⟨rfl, rfl, rfl, rfl⟩

/-- C5, amended: for every error `e` raised by the client inside `login`, `logout`
or `getToken`, the method logs `e` with `console.error` and rejects with `e` itself, not
wrapped. -/
theorem c5_client_error_rethrown {σ : Type} (p : Auth0Provider σ) (w : World σ)
    (e : JSVal) :
    ((p.client.loginWithRedirect (Auth0Provider.authorizationParams p.config)
        w.window w.client).1 = .error e →
      (p.login w).result = .error e ∧
      Event.consoleError "Login error:" e ∈ (p.login w).events) ∧
    ((p.client.logout (Auth0Provider.returnTo p.config w.window)
        w.window w.client).1 = .error e →
      (p.logout w).result = .error e ∧
      Event.consoleError "Logout error:" e ∈ (p.logout w).events) ∧
    ((p.client.getTokenSilently w.window w.client).1 = .error e →
      (p.getToken w).result = .error e ∧
      Event.consoleError "Token retrieval error:" e ∈ (p.getToken w).events) := by
  refine ⟨?_, ?_, ?_⟩
  · rcases hc : p.client.loginWithRedirect (Auth0Provider.authorizationParams p.config)
      w.window w.client with ⟨r, s⟩
    intro h
    subst h
    simp [Auth0Provider.login, hc]
  · rcases hc : p.client.logout (Auth0Provider.returnTo p.config w.window)
      w.window w.client with ⟨r, s⟩
    intro h
    subst h
    simp [Auth0Provider.logout, hc]
  · rcases hc : p.client.getTokenSilently w.window w.client with ⟨r, s⟩
    intro h
    subst h
    simp [Auth0Provider.getToken, hc]

theorem c5_client_error_rethrown_witness :
    (rejectingProvider.login callbackPage).result = .error networkError ∧
    (rejectingProvider.logout callbackPage).result = .error networkError ∧
    (rejectingProvider.getToken callbackPage).result = .error networkError :=
  have h := c5_client_error_rethrown rejectingProvider callbackPage networkError
  ⟨(h.1 rfl).1, (h.2.1 rfl).1, (h.2.2 rfl).1⟩

/-- C6: one invocation of a provider method calls the client at most once, and
only the method it wraps: `login`, `logout`, `getUser`, `isAuthenticated` and `getToken`
make exactly one call whether it resolves or rejects, `_handleAuthCallback` makes one call
of `handleRedirectCallback` on a callback query and none otherwise. -/
theorem c6_no_internal_retry {σ : Type} (p : Auth0Provider σ) (b : Browser) (w : World σ) :
    (clientCalls (p._handleAuthCallback b w).events).length ≤ 1 ∧
    clientCalls (p._handleAuthCallback b w).events =
      (if pendingCallback w.window.search then ["handleRedirectCallback"] else []) ∧
    clientCalls (p.login w).events = ["loginWithRedirect"] ∧
    clientCalls (p.logout w).events = ["logout"] ∧
    clientCalls (p.getUser w).events = ["getUser"] ∧
    clientCalls (p.isAuthenticated w).events = ["isAuthenticated"] ∧
    clientCalls (p.getToken w).events = ["getTokenSilently"] := by
  have hcb := Auth0Provider.clientCalls_handleAuthCallback p b w
  refine ⟨?_, hcb, ?_, ?_, ?_, ?_, ?_⟩
  · rw [hcb]
    split <;> simp
  · rcases hc : p.client.loginWithRedirect (Auth0Provider.authorizationParams p.config)
      w.window w.client with ⟨r, s⟩
    cases r <;> simp [Auth0Provider.login, hc, clientCalls, ClientCall.method]
  · rcases hc : p.client.logout (Auth0Provider.returnTo p.config w.window)
      w.window w.client with ⟨r, s⟩
    cases r <;> simp [Auth0Provider.logout, hc, clientCalls, ClientCall.method]
  · rcases hc : p.client.getUser w.window w.client with ⟨r, s⟩
    cases r <;> simp [Auth0Provider.getUser, hc, clientCalls, ClientCall.method]
  · rcases hc : p.client.isAuthenticated w.window w.client with ⟨r, s⟩
    cases r <;> simp [Auth0Provider.isAuthenticated, hc, clientCalls, ClientCall.method]
  · rcases hc : p.client.getTokenSilently w.window w.client with ⟨r, s⟩
    cases r <;> simp [Auth0Provider.getToken, hc, clientCalls, ClientCall.method]

/-- C7: `isAuthenticated()` and `getUser()` never reject: `isAuthenticated()`
resolves with the client's boolean when the client call resolves and with `false` when
it rejects, `getUser()` resolves with the client's user when the call resolves and with
`null` when it rejects. -/
theorem c7_read_accessors_total {σ : Type} (p : Auth0Provider σ) (w : World σ) :
    (∀ e, (p.isAuthenticated w).result ≠ .error e) ∧
    (∀ e, (p.getUser w).result ≠ .error e) ∧
    (p.isAuthenticated w).result =
      (match (p.client.isAuthenticated w.window w.client).1 with
        | .ok answer => .ok answer
        | .error _ => .ok false) ∧
    (p.getUser w).result =
      (match (p.client.getUser w.window w.client).1 with
        | .ok user => .ok user
        | .error _ => .ok .null) := by
  refine ⟨?_, ?_, ?_, ?_⟩
  · intro e
    rcases hc : p.client.isAuthenticated w.window w.client with ⟨r, s⟩
    cases r <;> simp [Auth0Provider.isAuthenticated, hc]
  · intro e
    rcases hc : p.client.getUser w.window w.client with ⟨r, s⟩
    cases r <;> simp [Auth0Provider.getUser, hc]
  · rcases hc : p.client.isAuthenticated w.window w.client with ⟨r, s⟩
    cases r <;> simp [Auth0Provider.isAuthenticated, hc]
  · rcases hc : p.client.getUser w.window w.client with ⟨r, s⟩
    cases r <;> simp [Auth0Provider.getUser, hc]

/-- C8, the code at the failing input: on the page
`https://app.example//evil.example/cb?code=abc&state=xyz` with a client whose exchange
resolves, `history.replaceState` is called with `location.pathname`, the string
`//evil.example/cb`, which names another origin; the call throws inside the `try`, the
`catch` logs it, the query stays in the location although the exchange succeeded, and
the next invocation is no no-op: it exchanges the same code again. -/
theorem c8_query_kept_after_resolved_exchange :
    pendingCallback crossOriginPage.window.search = true ∧
    ((resolvingProvider true).client.handleRedirectCallback crossOriginPage.window
      crossOriginPage.client).1 = .ok .undefined ∧
    standardBrowser.replaceState crossOriginPage.window crossOriginPage.window.pathname
      = .error securityError ∧
    ((resolvingProvider true)._handleAuthCallback standardBrowser crossOriginPage).events =
      [.call .handleRedirectCallback true,
       .replaceState "App" "//evil.example/cb",
       .consoleError "Error handling redirect callback:" securityError] ∧
    ((resolvingProvider true)._handleAuthCallback standardBrowser
      crossOriginPage).world.window.search = "?code=abc&state=xyz" ∧
    ((resolvingProvider true)._handleAuthCallback standardBrowser
      ((resolvingProvider true)._handleAuthCallback standardBrowser
        crossOriginPage).world).events =
      [.call .handleRedirectCallback true,
       .replaceState "App" "//evil.example/cb",
       .consoleError "Error handling redirect callback:" securityError] ∧
    resolvedExchanges ((resolvingProvider true).handleAuthCallbackTimes standardBrowser 2
      crossOriginPage).1 = 2 := by
  refine ⟨by decide, rfl, rfl, by decide, by decide, by decide, by decide⟩

/-- C9: `client.handleRedirectCallback` is called exactly when the query string
contains `code=` and contains `state=` as substrings.  The query
`?zipcode=1&realstate=2` has no parameter named `code` and none named `state`, yet the
exchange is called for it; it is also called for `?code=&state=`, both values empty. -/
theorem c9_detection_by_substring {σ : Type} (p : Auth0Provider σ) (b : Browser)
    (w : World σ) :
    (clientCalls (p._handleAuthCallback b w).events = ["handleRedirectCallback"] ↔
      (includes w.window.search "code=" = true ∧
        includes w.window.search "state=" = true)) ∧
    (hasParam "?zipcode=1&realstate=2" "code" = false ∧
      hasParam "?zipcode=1&realstate=2" "state" = false ∧
      clientCalls (p._handleAuthCallback b
        { w with window := { w.window with search := "?zipcode=1&realstate=2" } }).events
        = ["handleRedirectCallback"]) ∧
    (queryParams "?code=&state=" = [("code", ""), ("state", "")] ∧
      clientCalls (p._handleAuthCallback b
        { w with window := { w.window with search := "?code=&state=" } }).events
        = ["handleRedirectCallback"]) := by
  have key : ∀ u : World σ,
      clientCalls (p._handleAuthCallback b u).events =
        (if pendingCallback u.window.search then ["handleRedirectCallback"] else []) :=
    fun u => Auth0Provider.clientCalls_handleAuthCallback p b u
  refine ⟨?_, ⟨by decide, by decide, ?_⟩, ⟨by decide, ?_⟩⟩
  · rw [key w]
    cases h1 : includes w.window.search "code=" <;>
      cases h2 : includes w.window.search "state=" <;>
      simp [pendingCallback, h1, h2]
  · rw [key]
    have : pendingCallback "?zipcode=1&realstate=2" = true := by decide
    simp [this]
  · rw [key]
    have : pendingCallback "?code=&state=" = true := by decide
    simp [this]

/-- C10: caller-supplied settings win by right-biased merge.  Every property of
`config.options` replaces the provider's value in the client options, and a property
that `config.options` lacks keeps the provider's value (`cacheLocation` is
`'localstorage'`, `useRefreshTokens` is `true`); the client is built from these options.
`login()` passes `authorizationParams` whose `redirect_uri` is `config.redirectUri`
unless `config.authParams` has a `redirect_uri`; `logout()` passes `returnTo =
config.logoutRedirectUri` when that is truthy and `window.location.origin` otherwise,
the empty string included. -/
theorem c10_caller_settings_take_precedence {σ : Type} (p : Auth0Provider σ) (w : World σ)
    (newClient : Obj → Auth0Client σ) (config : Config) (b : Browser)
    (hoptions : (config.options.map Prod.fst).Nodup)
    (hparams : (p.config.authParams.map Prod.fst).Nodup) :
    (Auth0Provider.constructor newClient config b w).1.client
      = newClient (clientOptions config) ∧
    (∀ k v, Obj.get config.options k = some v →
      Obj.get (clientOptions config) k = some v) ∧
    (∀ k, Obj.get config.options k = none →
      Obj.get (clientOptions config) k =
        Obj.get [("domain", config.domain), ("client_id", config.clientId),
          ("redirect_uri", config.redirectUri), ("cacheLocation", .str "localstorage"),
          ("useRefreshTokens", .bool true)] k) ∧
    (Obj.get config.options "cacheLocation" = none →
      Obj.get (clientOptions config) "cacheLocation" = some (.str "localstorage")) ∧
    (Obj.get config.options "useRefreshTokens" = none →
      Obj.get (clientOptions config) "useRefreshTokens" = some (.bool true)) ∧
    (∃ resolved, (p.login w).events.head? = some (.call (.loginWithRedirect
      (Auth0Provider.authorizationParams p.config)) resolved)) ∧
    (∀ v, Obj.get p.config.authParams "redirect_uri" = some v →
      Obj.get (Auth0Provider.authorizationParams p.config) "redirect_uri" = some v) ∧
    (Obj.get p.config.authParams "redirect_uri" = none →
      Obj.get (Auth0Provider.authorizationParams p.config) "redirect_uri"
        = some p.config.redirectUri) ∧
    (∃ resolved, (p.logout w).events.head? = some (.call (.logout
      (Auth0Provider.returnTo p.config w.window)) resolved)) ∧
    (p.config.logoutRedirectUri.truthy = true →
      Auth0Provider.returnTo p.config w.window = p.config.logoutRedirectUri) ∧
    (p.config.logoutRedirectUri.truthy = false →
      Auth0Provider.returnTo p.config w.window = .str w.window.origin) ∧
    (p.config.logoutRedirectUri = .str "" →
      Auth0Provider.returnTo p.config w.window = .str w.window.origin) := by
  have hopt := fun k => Obj.get_spread
    [("domain", config.domain), ("client_id", config.clientId),
      ("redirect_uri", config.redirectUri), ("cacheLocation", .str "localstorage"),
      ("useRefreshTokens", .bool true)] config.options k hoptions
  have hauth := Obj.get_spread [("redirect_uri", p.config.redirectUri)]
    p.config.authParams "redirect_uri" hparams
  refine ⟨rfl, ?_, ?_, ?_, ?_, ?_, ?_, ?_, ?_, ?_, ?_, ?_⟩
  · intro k v h
    unfold clientOptions
    rw [hopt k, h]
  · intro k h
    unfold clientOptions
    rw [hopt k, h]
  · intro h
    unfold clientOptions
    rw [hopt, h]
    rfl
  · intro h
    unfold clientOptions
    rw [hopt, h]
    rfl
  · rcases hc : p.client.loginWithRedirect (Auth0Provider.authorizationParams p.config)
      w.window w.client with ⟨r, s⟩
    cases r <;> simp [Auth0Provider.login, hc]
  · intro v h
    unfold Auth0Provider.authorizationParams
    rw [hauth, h]
  · intro h
    unfold Auth0Provider.authorizationParams
    rw [hauth, h]
    rfl
  · rcases hc : p.client.logout (Auth0Provider.returnTo p.config w.window)
      w.window w.client with ⟨r, s⟩
    cases r <;> simp [Auth0Provider.logout, hc]
  · intro h
    simp [Auth0Provider.returnTo, JSVal.or, h]
  · intro h
    simp [Auth0Provider.returnTo, JSVal.or, h]
  · intro h
    simp [Auth0Provider.returnTo, JSVal.or, h, JSVal.truthy]

theorem c10_caller_settings_take_precedence_witness :
    ((sampleConfig.options.map Prod.fst).Nodup ∧
      (rejectingProvider.config.authParams.map Prod.fst).Nodup) ∧
    Obj.get (clientOptions sampleConfig) "cacheLocation" = some (.str "memory") ∧
    Obj.get (clientOptions sampleConfig) "useRefreshTokens" = some (.bool true) ∧
    Obj.get (Auth0Provider.authorizationParams rejectingProvider.config) "redirect_uri"
      = some (.str "https://app.example/alt") ∧
    Auth0Provider.returnTo rejectingProvider.config callbackPage.window
      = .str callbackPage.window.origin :=
  have h := c10_caller_settings_take_precedence rejectingProvider callbackPage
    (fun _ => rejectingClient networkError) sampleConfig standardBrowser
    (by decide) (by decide)
  ⟨⟨by decide, by decide⟩, h.2.1 "cacheLocation" (.str "memory") (by decide),
    h.2.2.2.2.1 (by decide), h.2.2.2.2.2.2.1 (.str "https://app.example/alt") (by decide),
    h.2.2.2.2.2.2.2.2.2.2.2 rfl⟩

end AuthSdk
